import Mathlib

/-!
Verification of the py_spring_redis connection-lifecycle and CRUD core.

The development shallowly embeds the Python sources:
  - src/py_spring_redis/redis_client.py     (RedisClient, heartbeat loop)
  - src/py_spring_redis/redis_crud_repository.py (RedisCrudRepository)
  - src/py_spring_redis/commons.py          (RedisKeyDocument)
Pure logic becomes Lean functions; the mutable client state (the live
connection, the store contents, the is_logged flag of the heartbeat
thread) becomes explicit state passing; Python exceptions become
Except results; the redis connection is an explicit behaviour record so
that both the healthy store and a failing store can be instantiated.
-/

/-- Equality of Except results is decidable when both components have
decidable equality; needed to evaluate the embedded operations on
concrete inputs. -/
instance {ε α : Type} [DecidableEq ε] [DecidableEq α] :
    DecidableEq (Except ε α) := fun a b =>
  match a, b with
  | Except.error e1, Except.error e2 => decidable_of_iff (e1 = e2) (by simp)
  | Except.error _, Except.ok _ => isFalse (fun h => Except.noConfusion h)
  | Except.ok _, Except.error _ => isFalse (fun h => Except.noConfusion h)
  | Except.ok a1, Except.ok a2 => decidable_of_iff (a1 = a2) (by simp)

namespace PySpringRedis

/-! ## Heartbeat loop (redis_client.py, start_redis_heart_beat_thread)

State of one heartbeat iteration: the identity of the connection object
currently held in the field named RedisClient dot underscore redis
(modelled as a Nat tag), the closed-over is_logged flag, and a fresh
supply of tags for connection objects newly constructed by _init_redis.
-/

structure HBState where
  conn : Nat
  is_logged : Bool
  freshSupply : Nat
deriving DecidableEq, Repr

inductive HBLog where
  | warnLost
  | successReestablished
deriving DecidableEq, Repr

/-- One iteration of the loop body in start_redis_heart_beat_thread,
given the result of the is_connected probe. Mirrors the source: when the
probe fails it logs a warning and, under the lock, calls _init_redis();
the source discards the value returned by _init_redis() instead of
assigning it to the stored connection field, so only the flag and the
fresh supply change. Afterwards, when is_logged is false, it logs the
success notice and sets is_logged. The third component reports the tag
of the connection constructed by _init_redis during this iteration, if
any. -/
def heartBeatStep (connected : Bool) (s : HBState) :
    HBState × List HBLog × Option Nat :=
  let (s1, logs1, constructed) :=
    if connected then
      (s, ([] : List HBLog), (none : Option Nat))
    else
      ({ conn := s.conn, is_logged := false, freshSupply := s.freshSupply + 1 },
        [HBLog.warnLost], some s.freshSupply)
  if s1.is_logged then
    (s1, logs1, constructed)
  else
    ({ s1 with is_logged := true }, logs1 ++ [HBLog.successReestablished],
      constructed)

/-- The loop run over a list of probe outcomes, collecting all logs.
The thread starts with is_logged set to false. -/
def heartBeatRun (probes : List Bool) (s : HBState) : HBState × List HBLog :=
  match probes with
  | [] => (s, [])
  | c :: cs =>
    let (s1, logs, _) := heartBeatStep c s
    let (s2, logs2) := heartBeatRun cs s1
    (s2, logs ++ logs2)

/-- Number of success notices in a log. -/
def successCount (logs : List HBLog) : Nat :=
  logs.count HBLog.successReestablished

/-- Number of failed probes in a trace. -/
def failedProbeCount (probes : List Bool) : Nat :=
  probes.count false

/-! ## Byte-level client primitives (redis_client.py: set, get, delete,
is_connected)

The redis-py connection stores byte strings; the client passes Python
str values, which the library encodes as UTF-8 on write, and the client
decodes the returned bytes with decode of utf-8 on read
(redis_client.py line 100). We model bytes as lists of Nat below 256,
the key-value store as an association list, and the connection as a
behaviour record whose raw operations may raise a RedisError, so that
the decorator redis_error_handler can be embedded faithfully. -/

/-- Strict UTF-8 encoding of one unicode scalar value. -/
def utf8EncodeChar (c : Nat) : List Nat :=
  if c < 0x80 then [c]
  else if c < 0x800 then [0xC0 + c / 64, 0x80 + c % 64]
  else if c < 0x10000 then
    [0xE0 + c / 4096, 0x80 + (c / 64) % 64, 0x80 + c % 64]
  else
    [0xF0 + c / 262144, 0x80 + (c / 4096) % 64, 0x80 + (c / 64) % 64,
      0x80 + c % 64]

/-- UTF-8 encoding of a list of unicode scalar values. -/
def utf8EncodeNats : List Nat → List Nat
  | [] => []
  | c :: cs => utf8EncodeChar c ++ utf8EncodeNats cs

/-- UTF-8 encoding of a string, as the Python encoder produces it. -/
def utf8Encode (s : String) : List Nat :=
  utf8EncodeNats (s.data.map Char.toNat)

/-- A byte is a UTF-8 continuation byte. -/
def isCont (b : Nat) : Bool :=
  0x80 ≤ b && b < 0xC0

/-- Strict decoding of one UTF-8 sequence at the head of a byte list,
returning the scalar value and the remaining bytes; rejects stray
continuation bytes, overlong forms, surrogates and values above
0x10FFFF, exactly as the strict Python str decode of utf-8 does. -/
def utf8DecodeOne (l : List Nat) : Option (Nat × List Nat) :=
  match l with
  | [] => none
  | b0 :: rest =>
    if b0 < 0x80 then some (b0, rest)
    else if b0 < 0xC2 then none
    else if b0 < 0xE0 then
      match rest with
      | b1 :: rest1 =>
        if isCont b1 then some ((b0 - 0xC0) * 64 + (b1 - 0x80), rest1)
        else none
      | [] => none
    else if b0 < 0xF0 then
      match rest with
      | b1 :: b2 :: rest2 =>
        if isCont b1 && isCont b2 then
          let v := (b0 - 0xE0) * 4096 + (b1 - 0x80) * 64 + (b2 - 0x80)
          if 0x800 ≤ v && (v < 0xD800 || 0xDFFF < v) then some (v, rest2)
          else none
        else none
      | _ => none
    else if b0 < 0xF5 then
      match rest with
      | b1 :: b2 :: b3 :: rest3 =>
        if isCont b1 && isCont b2 && isCont b3 then
          let v := (b0 - 0xF0) * 262144 + (b1 - 0x80) * 4096 +
            (b2 - 0x80) * 64 + (b3 - 0x80)
          if 0x10000 ≤ v && v < 0x110000 then some (v, rest3)
          else none
        else none
      | _ => none
    else none

/-- Decoding loop: repeatedly take one UTF-8 sequence off the head; the
fuel argument bounds the number of sequences and makes the recursion
structural; one byte per sequence at least, so the byte count is always
enough fuel. -/
def utf8DecodeLoop : List Nat → Nat → Option (List Nat)
  | [], _ => some []
  | _ :: _, 0 => none
  | b :: bs, fuel + 1 =>
    match utf8DecodeOne (b :: bs) with
    | none => none
    | some (c, rest) => (utf8DecodeLoop rest fuel).map (fun cs => c :: cs)

/-- Strict UTF-8 decoding of a byte list to its scalar values. -/
def utf8DecodeNats (l : List Nat) : Option (List Nat) :=
  utf8DecodeLoop l l.length

/-- UTF-8 decoding of bytes to a string, the Python str decode. -/
def utf8Decode (bs : List Nat) : Option String :=
  (utf8DecodeNats bs).map (fun cs => ⟨cs.map Char.ofNat⟩)

/-- Association-list read (first match wins, as a Python dict read or
the remote GET). -/
def kvLookup {α : Type} (st : List (String × α)) (k : String) : Option α :=
  match st with
  | [] => none
  | (k1, v) :: rest => if k1 = k then some v else kvLookup rest k

/-- Association-list write, as the remote SET. -/
def kvInsert {α : Type} (st : List (String × α)) (k : String) (v : α) :
    List (String × α) :=
  match st with
  | [] => [(k, v)]
  | (k1, v1) :: rest =>
    if k1 = k then (k, v) :: rest else (k1, v1) :: kvInsert rest k v

/-- Association-list removal, as the remote DELETE. -/
def kvRemove {α : Type} (st : List (String × α)) (k : String) :
    List (String × α) :=
  match st with
  | [] => []
  | (k1, v1) :: rest =>
    if k1 = k then kvRemove rest k else (k1, v1) :: kvRemove rest k

/-- The store contents at byte granularity: keys to byte values. -/
def KVStore : Type := List (String × List Nat)

/-- A connectivity or protocol error of the redis library; the client
code catches RedisError and ConnectionError together. -/
inductive RedisErr where
  | connectionError
  | redisError
deriving DecidableEq, Repr

/-- A unicode decoding failure of the Python str decode; it is not a
RedisError and redis_error_handler does not catch it. -/
inductive UnicodeDecodeErr where
  | unicodeDecodeError
deriving DecidableEq, Repr

/-- The raw connection behaviour the client talks to: each operation
either performs its store effect or raises a RedisError. -/
structure ConnBehavior where
  rawSet : KVStore → String → List Nat → Except RedisErr KVStore
  rawGet : KVStore → String → Except RedisErr (Option (List Nat))
  rawDelete : KVStore → String → Except RedisErr KVStore
  rawPing : KVStore → Except RedisErr Unit

/-- The healthy connection: every raw operation succeeds and acts on the
association-list store. -/
def okConn : ConnBehavior where
  rawSet st k v := Except.ok (kvInsert st k v)
  rawGet st k := Except.ok (kvLookup st k)
  rawDelete st k := Except.ok (kvRemove st k)
  rawPing _ := Except.ok ()

/-- The embedding of the decorator redis_error_handler: the wrapped body
either returns a value or raises a RedisError, and the wrapper turns the
error into the absent result None. -/
def redis_error_handler {α : Type} (body : Except RedisErr α) : Option α :=
  match body with
  | Except.error _ => none
  | Except.ok a => some a

namespace RedisClient

/-- RedisClient.set: writes the UTF-8 encoding of the value, returns the
value on success; a RedisError is swallowed by redis_error_handler and
the call returns None with the store unchanged. -/
def set (c : ConnBehavior) (st : KVStore) (key value : String) :
    KVStore × Option String :=
  match c.rawSet st key (utf8Encode value) with
  | Except.error _ => (st, none)
  | Except.ok st1 => (st1, some value)

/-- RedisClient.get: reads the bytes at the key and decodes them as
UTF-8; absent when the key is missing or a RedisError is raised; a
decoding failure would escape the handler as a UnicodeDecodeError. -/
def get (c : ConnBehavior) (st : KVStore) (key : String) :
    Except UnicodeDecodeErr (Option String) :=
  match c.rawGet st key with
  | Except.error _ => Except.ok none
  | Except.ok none => Except.ok none
  | Except.ok (some bs) =>
    match utf8Decode bs with
    | none => Except.error UnicodeDecodeErr.unicodeDecodeError
    | some s => Except.ok (some s)

/-- RedisClient.delete: deletes the key; a RedisError is swallowed and
the store is left unchanged; the Python method returns None on both
paths, so the interesting observable is the resulting store. -/
def delete (c : ConnBehavior) (st : KVStore) (key : String) : KVStore :=
  match c.rawDelete st key with
  | Except.error _ => st
  | Except.ok st1 => st1

/-- RedisClient.is_connected: pings the connection, true unless the ping
raises, in which case the handler inside the method returns false. -/
def is_connected (c : ConnBehavior) (st : KVStore) : Bool :=
  match c.rawPing st with
  | Except.error _ => false
  | Except.ok _ => true

end RedisClient

/-! ## Documents and the typed repository (commons.py,
redis_crud_repository.py)

For the repository claims the stored JSON text is abstracted to the
object it denotes: an association list from field names to field values
(all field values of the example documents are strings at this
granularity). The pydantic machinery is embedded explicitly: a model
class carries, per field, the exclude flag of its Field declaration, and
a document instance carries the full field assignment including the
identifier, so that the dump really has to filter the identifier out. -/

/-- One pydantic field declaration: its name and the exclude flag of
Field. -/
structure FieldSpec where
  fname : String
  exclude : Bool
deriving DecidableEq, Repr

/-- A concrete document class: its Python class name and its field
declarations. Every RedisKeyDocument subclass starts with the inherited
declaration of the identifier, id of type str with Field exclude set. -/
structure ModelCls where
  clsName : String
  fieldSpecs : List FieldSpec
deriving DecidableEq, Repr

/-- The field declaration the RedisKeyDocument base class contributes:
id of type str with Field exclude set true (commons.py line 5). -/
def idFieldSpec : FieldSpec := ⟨"id", true⟩

/-- A document instance: its class and the full field assignment,
identifier included. -/
structure Doc where
  cls : ModelCls
  values : List (String × String)
deriving DecidableEq, Repr

/-- The identifier attribute of a document. -/
def Doc.id (d : Doc) : String :=
  (kvLookup d.values "id").getD ""

/-- commons.py get_document_id: the class name, a colon, the id. -/
def Doc.get_document_id (d : Doc) : String :=
  d.cls.clsName ++ ":" ++ d.id

/-- commons.py get_document_key_base_name: the class name. -/
def ModelCls.get_document_key_base_name (m : ModelCls) : String :=
  m.clsName

/-- Whether the class declares the named field with the exclude flag. -/
def ModelCls.isExcluded (m : ModelCls) (n : String) : Bool :=
  m.fieldSpecs.any (fun s => s.fname = n && s.exclude)

/-- Pydantic model_dump_json at object granularity: the field
assignment with every excluded field filtered out. -/
def Doc.model_dump_json (d : Doc) : List (String × String) :=
  d.values.filter (fun kv => !(d.cls.isExcluded kv.1))

/-- Pydantic model_validate applied to the merged dict that writes the
given value into the id entry and takes every other entry from the
parsed payload (redis_crud_repository.py line 48, redis_client.py lines
115 to 117); payloads written by this system never carry an id entry,
since the dump excludes it. -/
def ModelCls.model_validate (m : ModelCls) (idVal : String)
    (payload : List (String × String)) : Doc :=
  ⟨m, ("id", idVal) :: payload⟩

/-- The payload-level view of the store: keys to parsed JSON objects. -/
def DocStore : Type := List (String × List (String × String))

/-- The primitive store operations a call performs, recorded so that a
claim about an operation being a no-op has an exact meaning. -/
inductive StoreOp where
  | opSet (key : String) (value : List (String × String))
  | opGet (key : String)
  | opDelete (key : String)
deriving DecidableEq, Repr

/-- RedisClient.set at payload granularity on a healthy store: performs
the write and returns the value. -/
def clientSet (st : DocStore) (k : String) (v : List (String × String)) :
    DocStore × List StoreOp × Option (List (String × String)) :=
  (kvInsert st k v, [StoreOp.opSet k v], some v)

/-- RedisClient.get at payload granularity on a healthy store. -/
def clientGet (st : DocStore) (k : String) :
    List StoreOp × Option (List (String × String)) :=
  ([StoreOp.opGet k], kvLookup st k)

/-- RedisClient.delete at payload granularity on a healthy store. -/
def clientDelete (st : DocStore) (k : String) : DocStore × List StoreOp :=
  (kvRemove st k, [StoreOp.opDelete k])

/-- A Python attribute error, raised when reading an attribute the
constructor never assigned. -/
inductive PyErr where
  | attributeError
deriving DecidableEq, Repr

/-- The repository state after construction
(redis_crud_repository.py lines 16 to 20): the resolved model class,
and the key-base attribute, which the constructor assigns only when
resolution succeeded — on the early return it stays unassigned. -/
structure Repo where
  model_cls : Option ModelCls
  key_base : Option String
deriving DecidableEq, Repr

/-- The repository constructor, taking the outcome of
_get_model_class. -/
def Repo.init (resolved : Option ModelCls) : Repo :=
  match resolved with
  | none => ⟨none, none⟩
  | some m => ⟨some m, some m.get_document_key_base_name⟩

/-- RedisCrudRepository.save: writes the dumped payload under the
derived document id via the client set, and returns the document when
the write reported a value. The resolved model class is not consulted
at all. -/
def Repo.save (_r : Repo) (st : DocStore) (d : Doc) :
    DocStore × List StoreOp × Option Doc :=
  let (st1, ops, v) := clientSet st d.get_document_id d.model_dump_json
  match v with
  | none => (st1, ops, none)
  | some _ => (st1, ops, some d)

/-- RedisCrudRepository.find_by_id: reads the key-base attribute (an
attribute error when the constructor never assigned it), builds the
key, fetches, and on a hit validates the payload with the full key
written into the id entry. -/
def Repo.find_by_id (r : Repo) (st : DocStore) (i : String) :
    List StoreOp × Except PyErr (Option Doc) :=
  match r.key_base with
  | none => ([], Except.error PyErr.attributeError)
  | some p =>
    let k := p ++ ":" ++ i
    let (ops, v) := clientGet st k
    match v with
    | none => (ops, Except.ok none)
    | some payload =>
      match r.model_cls with
      | none => (ops, Except.ok none)
      | some m => (ops, Except.ok (some (m.model_validate k payload)))

/-- The loop body of get_all_values_by_document_type before the error
handler: iterate over the scanned keys, fetch each through the raw
connection (which may raise), skip vanished keys, validate the others
with the scanned key written into the id entry. A raised error
propagates out of the loop, losing the documents already collected. -/
def get_all_raw (m : ModelCls) (keys : List String)
    (fetch : String → Except RedisErr (Option (List (String × String)))) :
    Except RedisErr (List Doc) :=
  match keys with
  | [] => Except.ok []
  | k :: ks =>
    match fetch k with
    | Except.error e => Except.error e
    | Except.ok none => get_all_raw m ks fetch
    | Except.ok (some payload) =>
      match get_all_raw m ks fetch with
      | Except.error e => Except.error e
      | Except.ok docs => Except.ok (m.model_validate k payload :: docs)

/-- RedisClient.get_all_values_by_document_type: the loop body wrapped
in redis_error_handler, so a raised error becomes the absent result. -/
def get_all_values_by_document_type (m : ModelCls) (keys : List String)
    (fetch : String → Except RedisErr (Option (List (String × String)))) :
    Option (List Doc) :=
  redis_error_handler (get_all_raw m keys fetch)

/-- RedisCrudRepository.find_all: the empty list when the model class
is unresolved, otherwise the type-scoped scan. -/
def Repo.find_all (r : Repo) (keys : List String)
    (fetch : String → Except RedisErr (Option (List (String × String)))) :
    Option (List Doc) :=
  match r.model_cls with
  | none => some []
  | some m => get_all_values_by_document_type m keys fetch

/-- RedisCrudRepository.delete: deletes under the derived document id;
the resolved model class is not consulted. -/
def Repo.delete (_r : Repo) (st : DocStore) (d : Doc) :
    DocStore × List StoreOp :=
  clientDelete st d.get_document_id

/-! ## Identifier validation at construction (commons.py,
pydantic semantics)

Construction of a RedisKeyDocument validates the value supplied for the
field declared id of type str. The validation semantics is that of
pydantic v2 in its default lax mode: a str is accepted unchanged, bytes
are accepted after a strict UTF-8 decode, and every other type —
integers, floats, booleans, None — is rejected with a validation error;
the repository test suite pins the integer case
(tests/test_redis_key_document.py, test_invalid_id_type). -/

/-- A Python runtime value supplied for the identifier field. -/
inductive PyValue where
  | pyStr (s : String)
  | pyInt (n : Int)
  | pyFloat
  | pyBool (b : Bool)
  | pyBytes (bs : List Nat)
  | pyNone
deriving DecidableEq, Repr

/-- A pydantic validation error. -/
inductive ValidationError where
  | stringType
deriving DecidableEq, Repr

/-- Pydantic v2 lax-mode validation of a value against a field of type
str: str passes through, bytes are UTF-8 decoded (failing bytes are
rejected), everything else fails with no coercion. -/
def validateStrField (v : PyValue) : Except ValidationError String :=
  match v with
  | PyValue.pyStr s => Except.ok s
  | PyValue.pyBytes bs =>
    match utf8Decode bs with
    | some s => Except.ok s
    | none => Except.error ValidationError.stringType
  | _ => Except.error ValidationError.stringType

/-- A validated RedisKeyDocument instance of the base class: just the
identifier. -/
structure RedisKeyDocument where
  id : String
deriving DecidableEq, Repr

/-- Constructing a RedisKeyDocument from a runtime value for the id
field: pydantic validates the value against str at construction. -/
def RedisKeyDocument.construct (idVal : PyValue) :
    Except ValidationError RedisKeyDocument :=
  match validateStrField idVal with
  | Except.error e => Except.error e
  | Except.ok s => Except.ok ⟨s⟩

end PySpringRedis

namespace PySpringRedis

/-- The Account class of the concrete scenario in the repository
documentation: the inherited excluded id and one payload field. -/
def accountCls : ModelCls := ⟨"Account", [idFieldSpec, ⟨"holder", false⟩]⟩

/-- The concrete scenario document. -/
def accountDoc : Doc := ⟨accountCls, [("id", "acc_001"), ("holder", "John Smith")]⟩

/-- A repository whose document type resolved to Account. -/
def repoAccount : Repo := Repo.init (some accountCls)

/-- A repository whose document type resolution failed. -/
def repoInert : Repo := Repo.init none

/-- A fetch behaviour for the type-scoped scan in which the first key
is served and the second raises a connection error partway through the
scan. -/
def fetchWithError : String → Except RedisErr (Option (List (String × String))) :=
  fun k =>
    if k = "Account:a" then Except.ok (some [("holder", "A")])
    else Except.error RedisErr.connectionError

/-- A connection behaviour where every raw operation raises a
connection error: the unreachable-store scenario. -/
def failConn : ConnBehavior where
  rawSet _ _ _ := Except.error RedisErr.connectionError
  rawGet _ _ := Except.error RedisErr.connectionError
  rawDelete _ _ := Except.error RedisErr.connectionError
  rawPing _ := Except.error RedisErr.connectionError

/-! ## Helper lemmas -/

/-- The scalar value of a Lean character is a valid unicode scalar. -/
theorem char_toNat_valid (c : Char) :
    c.toNat < 0xD800 ∨ (0xDFFF < c.toNat ∧ c.toNat < 0x110000) := by
  rcases c.valid with h | ⟨h1, h2⟩
  · left
    have h0 : c.val.toNat < (0xd800 : UInt32).toNat := h
    simpa using h0
  · right
    refine ⟨?_, ?_⟩
    · have h0 : (0xdfff : UInt32).toNat < c.val.toNat := h1
      simpa using h0
    · have h0 : c.val.toNat < (0x110000 : UInt32).toNat := h2
      simpa using h0

/-- The encoder never produces the empty byte list. -/
theorem utf8EncodeChar_ne_nil (c : Nat) : utf8EncodeChar c ≠ [] := by
  rw [utf8EncodeChar]
  split_ifs <;> simp

/-- Decoding one sequence off the encoding of a valid scalar value
prepended to any byte tail yields the scalar and the tail. -/
theorem utf8DecodeOne_encodeChar (c : Nat)
    (hv : c < 0xD800 ∨ (0xDFFF < c ∧ c < 0x110000)) (rest : List Nat) :
    utf8DecodeOne (utf8EncodeChar c ++ rest) = some (c, rest) := by
  by_cases h1 : c < 0x80
  · simp only [utf8EncodeChar, if_pos h1, List.cons_append, List.nil_append]
    dsimp only [utf8DecodeOne]
    simp only [if_pos h1]
  · by_cases h2 : c < 0x800
    · have e1 : ¬ (0xC0 + c / 64 < 0x80) := by omega
      have e2 : ¬ (0xC0 + c / 64 < 0xC2) := by omega
      have e3 : 0xC0 + c / 64 < 0xE0 := by omega
      have e4 : isCont (0x80 + c % 64) = true := by
        simp only [isCont, Bool.and_eq_true, decide_eq_true_eq]
        omega
      have hval : (0xC0 + c / 64 - 0xC0) * 64 + (0x80 + c % 64 - 0x80) = c := by
        omega
      simp only [utf8EncodeChar, if_neg h1, if_pos h2, List.cons_append,
        List.nil_append]
      dsimp only [utf8DecodeOne]
      simp only [if_neg e1, if_neg e2, if_pos e3, e4, if_true, hval]
    · by_cases h3 : c < 0x10000
      · have e1 : ¬ (0xE0 + c / 4096 < 0x80) := by omega
        have e2 : ¬ (0xE0 + c / 4096 < 0xC2) := by omega
        have e3 : ¬ (0xE0 + c / 4096 < 0xE0) := by omega
        have e4 : 0xE0 + c / 4096 < 0xF0 := by omega
        have e5 : (isCont (0x80 + c / 64 % 64) && isCont (0x80 + c % 64)) =
            true := by
          simp only [isCont, Bool.and_eq_true, decide_eq_true_eq]
          omega
        have e6 : (0x800 ≤ (0xE0 + c / 4096 - 0xE0) * 4096 +
            (0x80 + c / 64 % 64 - 0x80) * 64 + (0x80 + c % 64 - 0x80) &&
            ((0xE0 + c / 4096 - 0xE0) * 4096 +
            (0x80 + c / 64 % 64 - 0x80) * 64 + (0x80 + c % 64 - 0x80) < 0xD800
            || 0xDFFF < (0xE0 + c / 4096 - 0xE0) * 4096 +
            (0x80 + c / 64 % 64 - 0x80) * 64 + (0x80 + c % 64 - 0x80))) =
            true := by
          simp only [Bool.and_eq_true, Bool.or_eq_true, decide_eq_true_eq]
          omega
        have hval : (0xE0 + c / 4096 - 0xE0) * 4096 +
            (0x80 + c / 64 % 64 - 0x80) * 64 + (0x80 + c % 64 - 0x80) = c := by
          omega
        simp only [utf8EncodeChar, if_neg h1, if_neg h2, if_pos h3,
          List.cons_append, List.nil_append]
        have efin : (0x800 ≤ c && (c < 0xD800 || 0xDFFF < c)) = true := by
          simp only [Bool.and_eq_true, Bool.or_eq_true, decide_eq_true_eq]
          omega
        dsimp only [utf8DecodeOne]
        simp only [if_neg e1, if_neg e2, if_neg e3, if_pos e4, e5, e6,
          if_true, hval, efin]
      · have h4 : c < 0x110000 := by omega
        have e1 : ¬ (0xF0 + c / 262144 < 0x80) := by omega
        have e2 : ¬ (0xF0 + c / 262144 < 0xC2) := by omega
        have e3 : ¬ (0xF0 + c / 262144 < 0xE0) := by omega
        have e4 : ¬ (0xF0 + c / 262144 < 0xF0) := by omega
        have e5 : 0xF0 + c / 262144 < 0xF5 := by omega
        have e6 : (isCont (0x80 + c / 4096 % 64) &&
            isCont (0x80 + c / 64 % 64) && isCont (0x80 + c % 64)) = true := by
          simp only [isCont, Bool.and_eq_true, decide_eq_true_eq]
          omega
        have e7 : (0x10000 ≤ (0xF0 + c / 262144 - 0xF0) * 262144 +
            (0x80 + c / 4096 % 64 - 0x80) * 4096 +
            (0x80 + c / 64 % 64 - 0x80) * 64 + (0x80 + c % 64 - 0x80) &&
            (0xF0 + c / 262144 - 0xF0) * 262144 +
            (0x80 + c / 4096 % 64 - 0x80) * 4096 +
            (0x80 + c / 64 % 64 - 0x80) * 64 + (0x80 + c % 64 - 0x80) <
            0x110000) = true := by
          simp only [Bool.and_eq_true, decide_eq_true_eq]
          omega
        have hval : (0xF0 + c / 262144 - 0xF0) * 262144 +
            (0x80 + c / 4096 % 64 - 0x80) * 4096 +
            (0x80 + c / 64 % 64 - 0x80) * 64 + (0x80 + c % 64 - 0x80) = c := by
          omega
        simp only [utf8EncodeChar, if_neg h1, if_neg h2, if_neg h3,
          List.cons_append, List.nil_append]
        have efin : (0x10000 ≤ c && c < 0x110000) = true := by
          simp only [Bool.and_eq_true, decide_eq_true_eq]
          omega
        dsimp only [utf8DecodeOne]
        simp only [if_neg e1, if_neg e2, if_neg e3, if_neg e4, if_pos e5, e6,
          e7, if_true, hval, efin]

/-- The decoding loop inverts the encoder whenever the fuel covers the
byte count. -/
theorem utf8DecodeLoop_encodeNats (cs : List Nat)
    (hv : ∀ c ∈ cs, c < 0xD800 ∨ (0xDFFF < c ∧ c < 0x110000)) :
    ∀ fuel, (utf8EncodeNats cs).length ≤ fuel →
      utf8DecodeLoop (utf8EncodeNats cs) fuel = some cs := by
  induction cs with
  | nil =>
    intro fuel _
    rw [utf8EncodeNats]
    cases fuel <;> rfl
  | cons c cs ih =>
    intro fuel hfuel
    rw [utf8EncodeNats] at hfuel ⊢
    obtain ⟨b, bs, hb⟩ :=
      List.exists_cons_of_ne_nil (utf8EncodeChar_ne_nil c)
    have hlen1 : 1 ≤ (utf8EncodeChar c).length := by rw [hb]; simp
    rw [List.length_append] at hfuel
    obtain ⟨f, rfl⟩ : ∃ f, fuel = f + 1 := by
      cases fuel with
      | zero => omega
      | succ f => exact ⟨f, rfl⟩
    rw [hb, List.cons_append, utf8DecodeLoop, ← List.cons_append, ← hb,
      utf8DecodeOne_encodeChar c (hv c (by simp)) (utf8EncodeNats cs)]
    dsimp only
    rw [ih (fun x hx => hv x (by simp [hx])) f (by omega)]
    rfl

/-- Decoding the encoding of a list of valid scalar values recovers the
list. -/
theorem utf8DecodeNats_encodeNats (cs : List Nat)
    (hv : ∀ c ∈ cs, c < 0xD800 ∨ (0xDFFF < c ∧ c < 0x110000)) :
    utf8DecodeNats (utf8EncodeNats cs) = some cs := by
  rw [utf8DecodeNats]
  exact utf8DecodeLoop_encodeNats cs hv _ le_rfl

/-- The UTF-8 round trip on strings: decoding the encoding of any
string gives back the string. -/
theorem utf8Decode_utf8Encode (s : String) :
    utf8Decode (utf8Encode s) = some s := by
  rw [utf8Decode, utf8Encode, utf8DecodeNats_encodeNats]
  · show some (⟨(s.data.map Char.toNat).map Char.ofNat⟩ : String) = some s
    congr 1
    apply String.ext
    show (s.data.map Char.toNat).map Char.ofNat = s.data
    rw [List.map_map]
    refine List.map_id'' (fun c => ?_) _
    exact Char.ofNat_toNat c
  · intro c hc
    rcases List.mem_map.mp hc with ⟨c0, _, rfl⟩
    exact char_toNat_valid c0

/-- Reading back the key just written returns the written value. -/
theorem kvLookup_kvInsert {α : Type} (st : List (String × α)) (k : String)
    (v : α) : kvLookup (kvInsert st k v) k = some v := by
  induction st with
  | nil => simp [kvInsert, kvLookup]
  | cons kv rest ih =>
    obtain ⟨k1, v1⟩ := kv
    by_cases h : k1 = k
    · simp [kvInsert, h, kvLookup]
    · simp [kvInsert, h, kvLookup, ih]

/-- After any heartbeat iteration the is_logged flag is set: either it
was set and the connected branch kept it, or the final conditional just
logged and set it. -/
theorem heartBeatStep_is_logged (c : Bool) (s : HBState) :
    ((heartBeatStep c s).1).is_logged = true := by
  cases c
  · rfl
  · rw [heartBeatStep]
    dsimp only
    by_cases h : s.is_logged
    · simp [h]
    · simp [Bool.not_eq_true] at h
      simp [h]

/-- The logs of one iteration with a failed probe: the warning and,
since the reconnect branch just reset the flag, a success notice. -/
theorem heartBeatStep_false_logs (s : HBState) :
    (heartBeatStep false s).2.1 = [HBLog.warnLost, HBLog.successReestablished] :=
  rfl

/-- The logs of one iteration with a successful probe depend only on
the incoming flag. -/
theorem heartBeatStep_true_logs (s : HBState) :
    (heartBeatStep true s).2.1 =
      if s.is_logged then [] else [HBLog.successReestablished] := by
  rw [heartBeatStep]
  by_cases h : s.is_logged <;> simp [h]

/-- Unfolding one iteration of the heartbeat run. -/
theorem heartBeatRun_cons (c : Bool) (cs : List Bool) (s : HBState) :
    (heartBeatRun (c :: cs) s).2 =
      (heartBeatStep c s).2.1 ++ (heartBeatRun cs (heartBeatStep c s).1).2 :=
  rfl

/-- Success notices are counted per log segment. -/
theorem successCount_append (l1 l2 : List HBLog) :
    successCount (l1 ++ l2) = successCount l1 + successCount l2 :=
  List.count_append HBLog.successReestablished l1 l2

/-- From a state whose flag is already set, the run logs one success
notice per failed probe: each failed probe resets the flag and the
success branch immediately sets it back, logging once; successful
probes log nothing. -/
theorem heartBeatRun_logged (probes : List Bool) :
    ∀ s : HBState, s.is_logged = true →
      successCount (heartBeatRun probes s).2 = failedProbeCount probes := by
  induction probes with
  | nil => intro s _; rfl
  | cons c cs ih =>
    intro s h
    rw [heartBeatRun_cons, successCount_append,
      ih (heartBeatStep c s).1 (heartBeatStep_is_logged c s)]
    cases c
    · rw [heartBeatStep_false_logs]
      simp [successCount, failedProbeCount, List.count_cons]
      omega
    · rw [heartBeatStep_true_logs, h]
      simp [successCount, failedProbeCount, List.count_cons]

/-! ## Claim theorems -/

/-- Claim C1: the claim states that after a not-connected probe the
heartbeat replaces the stored connection with the freshly constructed
one. The source constructs the fresh connection but discards the value
returned by _init_redis (redis_client.py line 145), so the stored
connection reference is unchanged; in particular, in the state with
stored connection 0 and fresh tag 1, the constructed connection is 1
while the stored reference stays 0. This theorem evaluates the code at
that failing input and in general. -/
theorem C1_reconnect_discards_new_connection :
    (∀ s : HBState, ((heartBeatStep false s).1).conn = s.conn ∧
      (heartBeatStep false s).2.2 = some s.freshSupply) ∧
    ((heartBeatStep false ⟨0, true, 1⟩).2.2 = some 1 ∧
      ((heartBeatStep false ⟨0, true, 1⟩).1).conn = 0) := by
  exact ⟨fun s => ⟨rfl, rfl⟩, by decide⟩

/-- Claim C3 counterexample: in the probe trace true, false, false,
true — one failure episode of two failed probes ending in a successful
probe — the loop logs three success notices: one at the first
iteration, and one during each iteration of the outage (the reconnect
branch resets the flag, and the success branch of the same iteration
immediately logs and sets it back), while the recovery probe at the
fourth iteration logs nothing. The claim predicts exactly one success
notice for this trace, logged at the recovery probe. -/
theorem C3_success_notice_counterexample :
    successCount (heartBeatRun [true, false, false, true] ⟨0, false, 1⟩).2 =
      3 ∧
    (heartBeatRun [true, false, false, true] ⟨0, false, 1⟩).2 =
      [HBLog.successReestablished, HBLog.warnLost,
        HBLog.successReestablished, HBLog.warnLost,
        HBLog.successReestablished] ∧
    (3 : Nat) ≠ 1 := by
  decide

/-- Claim C3 (amended): the heartbeat loop logs one success notice on
its first iteration regardless of the probe outcome, and afterwards one
success notice in exactly those iterations whose probe fails; no notice
fires on the successful probe that ends an outage. Hence over a
nonempty trace started with a clear flag the number of success notices
is the number of failed probes, plus one when the first probe
succeeds. -/
theorem C3_success_notice_count (c : Bool) (cs : List Bool) (s : HBState)
    (h : s.is_logged = false) :
    successCount (heartBeatRun (c :: cs) s).2 =
      failedProbeCount (c :: cs) + (if c then 1 else 0) := by
  rw [heartBeatRun_cons, successCount_append,
    heartBeatRun_logged cs (heartBeatStep c s).1 (heartBeatStep_is_logged c s)]
  cases c
  · rw [heartBeatStep_false_logs]
    simp [successCount, failedProbeCount, List.count_cons]
    omega
  · rw [heartBeatStep_true_logs, h]
    simp [successCount, failedProbeCount, List.count_cons]
    omega

/-- Witness for the amended claim C3 at the trace true, false from the
initial state of the thread. -/
theorem C3_success_notice_count_witness :
    successCount (heartBeatRun [true, false] ⟨0, false, 1⟩).2 =
      failedProbeCount [true, false] + 1 :=
  C3_success_notice_count true [false] ⟨0, false, 1⟩ rfl

/-- Claim C6: when the raw connection raises a connectivity or protocol
error, set returns the absent value with the store untouched, get
returns the absent value without raising, delete leaves the store
untouched without raising, and is_connected returns false — the
decorator redis_error_handler, and the handler inside is_connected,
swallow the error instead of re-raising it. -/
theorem C6_errors_swallowed (c : ConnBehavior) (st : KVStore)
    (k v : String) (e : RedisErr) :
    (c.rawSet st k (utf8Encode v) = Except.error e →
      RedisClient.set c st k v = (st, none)) ∧
    (c.rawGet st k = Except.error e →
      RedisClient.get c st k = Except.ok none) ∧
    (c.rawDelete st k = Except.error e →
      RedisClient.delete c st k = st) ∧
    (c.rawPing st = Except.error e →
      RedisClient.is_connected c st = false) := by
  refine ⟨fun h => ?_, fun h => ?_, fun h => ?_, fun h => ?_⟩ <;>
    simp [RedisClient.set, RedisClient.get, RedisClient.delete,
      RedisClient.is_connected, h]

/-- Witness for claim C6 on the connection behaviour where every raw
operation raises a connection error. -/
theorem C6_errors_swallowed_witness :
    RedisClient.set failConn [] "k" "v" = ([], none) ∧
    RedisClient.get failConn [] "k" = Except.ok none ∧
    RedisClient.delete failConn [] "k" = [] ∧
    RedisClient.is_connected failConn [] = false := by
  obtain ⟨h1, h2, h3, h4⟩ :=
    C6_errors_swallowed failConn [] "k" "v" RedisErr.connectionError
  exact ⟨h1 rfl, h2 rfl, h3 rfl, h4 rfl⟩

/-- Claim C10: on the healthy store, get after set on the same key
returns exactly the value that was set: the value is UTF-8 encoded on
the way in, stored, read back, and decoded on the way out, and the
round trip is the identity on strings. -/
theorem C10_get_after_set_roundtrip (st : KVStore) (k v : String) :
    RedisClient.get okConn (RedisClient.set okConn st k v).1 k =
      Except.ok (some v) := by
  simp [RedisClient.set, RedisClient.get, okConn, kvLookup_kvInsert,
    utf8Decode_utf8Encode]

/-- Claim C2: the claim states that find_by_id after save returns a
document equal to the saved one in every field, with the identifier
field equal to the identifier that was saved. The source writes the
full store key into the identifier field on read
(redis_crud_repository.py line 48 validates with the id entry set to
the key built from the prefix and the given id), so the read-back
identifier is Account:acc_001 rather than acc_001; every other field
round-trips. This theorem evaluates the code at that failing input. -/
theorem C2_roundtrip_attaches_full_key_as_id :
    ((Repo.find_by_id repoAccount
        (Repo.save repoAccount [] accountDoc).1 "acc_001").2 =
      Except.ok (some ⟨accountCls,
        [("id", "Account:acc_001"), ("holder", "John Smith")]⟩)) ∧
    (Doc.id ⟨accountCls,
      [("id", "Account:acc_001"), ("holder", "John Smith")]⟩ =
      "Account:acc_001") ∧
    accountDoc.id = "acc_001" ∧
    ("Account:acc_001" : String) ≠ "acc_001" ∧
    (kvLookup (Doc.values ⟨accountCls,
        [("id", "Account:acc_001"), ("holder", "John Smith")]⟩) "holder" =
      kvLookup accountDoc.values "holder") := by
  decide

/-- Claim C4 counterexample: on a repository whose document type did
not resolve, save is not a no-op — it performs the store write derived
from the document argument and returns the document — and find_by_id
raises an attribute error instead of returning absent; delete likewise
performs its store deletion. -/
theorem C4_inert_repo_counterexample :
    ((Repo.save repoInert [] accountDoc).2.1 =
      [StoreOp.opSet "Account:acc_001" [("holder", "John Smith")]]) ∧
    ((Repo.save repoInert [] accountDoc).2.2 = some accountDoc) ∧
    ((Repo.find_by_id repoInert [] "acc_001").2 =
      Except.error PyErr.attributeError) ∧
    ((Repo.delete repoInert [] accountDoc).2 =
      [StoreOp.opDelete "Account:acc_001"]) := by
  decide

/-- Claim C4 (amended): when the document type cannot be resolved, only
find_all is guarded: it returns the empty list without touching the
store; find_by_id raises an attribute error (the constructor returned
before assigning the key-base attribute) without touching the store;
save and delete are not no-ops — they perform their store write and
delete under the key derived from the document argument, and save
returns the document. -/
theorem C4_unresolved_repo_behavior (st : DocStore) (d : Doc) (i : String)
    (keys : List String)
    (fetch : String → Except RedisErr (Option (List (String × String)))) :
    Repo.find_all (Repo.init none) keys fetch = some [] ∧
    Repo.find_by_id (Repo.init none) st i =
      ([], Except.error PyErr.attributeError) ∧
    Repo.save (Repo.init none) st d =
      (kvInsert st d.get_document_id d.model_dump_json,
        [StoreOp.opSet d.get_document_id d.model_dump_json], some d) ∧
    Repo.delete (Repo.init none) st d =
      (kvRemove st d.get_document_id, [StoreOp.opDelete d.get_document_id]) :=
  ⟨rfl, rfl, rfl, rfl⟩

/-- A raised fetch error anywhere in the key list aborts the scan loop
with that error (or an earlier one): the loop propagates the first
error it hits, losing the documents collected so far. -/
theorem get_all_raw_error_of_fetch_error (m : ModelCls) (keys : List String)
    (fetch : String → Except RedisErr (Option (List (String × String))))
    (hk : ∃ k ∈ keys, ∃ e, fetch k = Except.error e) :
    ∃ e2, get_all_raw m keys fetch = Except.error e2 := by
  induction keys with
  | nil =>
    rcases hk with ⟨k, hkmem, _⟩
    simp at hkmem
  | cons k0 ks ih =>
    rcases hk with ⟨k, hkmem, e, he⟩
    rw [get_all_raw]
    rcases hf0 : fetch k0 with e0 | v0
    · exact ⟨e0, rfl⟩
    · have hks : ∃ k1 ∈ ks, ∃ e1, fetch k1 = Except.error e1 := by
        rcases List.mem_cons.mp hkmem with rfl | hmem
        · rw [hf0] at he
          exact absurd he (by simp)
        · exact ⟨k, hmem, e, he⟩
      obtain ⟨e2, he2⟩ := ih hks
      rcases v0 with _ | payload
      · exact ⟨e2, he2⟩
      · exact ⟨e2, by rw [he2]⟩

/-- Claim C5 counterexample: scanning two keys where fetching the
second raises gives the absent result, not the partial list holding the
document collected from the first key. -/
theorem C5_mid_scan_error_counterexample :
    get_all_values_by_document_type accountCls ["Account:a", "Account:b"]
      fetchWithError = none ∧
    (none : Option (List Doc)) ≠
      some [accountCls.model_validate "Account:a" [("holder", "A")]] := by
  decide

/-- Claim C5 (amended): a connectivity or protocol error raised partway
through the type-scoped scan aborts the scan and the whole call returns
the absent result — the error handler swallows the error and the
partial list collected before it is discarded, not returned. -/
theorem C5_mid_scan_error_returns_absent (m : ModelCls) (keys : List String)
    (fetch : String → Except RedisErr (Option (List (String × String))))
    (hk : ∃ k ∈ keys, ∃ e, fetch k = Except.error e) :
    get_all_values_by_document_type m keys fetch = none := by
  obtain ⟨e2, he2⟩ := get_all_raw_error_of_fetch_error m keys fetch hk
  rw [get_all_values_by_document_type, he2]
  rfl

/-- Witness for the amended claim C5 at the two-key scan whose second
fetch raises. -/
theorem C5_mid_scan_error_returns_absent_witness :
    get_all_values_by_document_type accountCls ["Account:a", "Account:b"]
      fetchWithError = none :=
  C5_mid_scan_error_returns_absent accountCls ["Account:a", "Account:b"]
    fetchWithError
    ⟨"Account:b", by decide, RedisErr.connectionError, by decide⟩

/-- Claim C7 counterexample: the claim states that construction with
any non-string identifier fails validation with no silent coercion, but
a bytes identifier — a non-string value — is accepted and silently
UTF-8 decoded to a string by the lax-mode coercion (the scan path even
relies on this when it passes raw key bytes as the identifier). -/
theorem C7_bytes_id_coerced_counterexample :
    RedisKeyDocument.construct (PyValue.pyBytes [97, 98, 99]) =
      Except.ok ⟨"abc"⟩ := by
  decide

/-- Claim C7 (amended): constructing a document with an integer, float,
boolean or None identifier fails immediately with a validation error
and no coercion; bytes identifiers are the exception — they are
silently UTF-8 decoded — so the rejection does not extend to every
non-string value. -/
theorem C7_non_string_id_rejected (n : Int) (b : Bool) :
    RedisKeyDocument.construct (PyValue.pyInt n) =
      Except.error ValidationError.stringType ∧
    RedisKeyDocument.construct PyValue.pyFloat =
      Except.error ValidationError.stringType ∧
    RedisKeyDocument.construct (PyValue.pyBool b) =
      Except.error ValidationError.stringType ∧
    RedisKeyDocument.construct PyValue.pyNone =
      Except.error ValidationError.stringType :=
  ⟨rfl, rfl, rfl, rfl⟩

/-- Claim C8: for a document of any RedisKeyDocument subclass — its
field declarations start with the inherited excluded id and every own
declaration is a non-id, non-excluded field — the dumped payload
written by save contains no entry named id, and contains every entry of
the document whose name is not id. -/
theorem C8_payload_excludes_id (d : Doc) (rest : List FieldSpec)
    (hspec : d.cls.fieldSpecs = idFieldSpec :: rest)
    (hrest : ∀ s ∈ rest, s.exclude = false) :
    (∀ kv ∈ d.model_dump_json, kv.1 ≠ "id") ∧
    (∀ kv ∈ d.values, kv.1 ≠ "id" → kv ∈ d.model_dump_json) := by
  constructor
  · intro kv hkv
    rcases List.mem_filter.mp hkv with ⟨_, hexcl⟩
    intro hid
    rw [Bool.not_eq_eq_eq_not, Bool.not_true] at hexcl
    rw [ModelCls.isExcluded, hspec] at hexcl
    simp [idFieldSpec, hid] at hexcl
  · intro kv hkv hne
    refine List.mem_filter.mpr ⟨hkv, ?_⟩
    rw [Bool.not_eq_eq_eq_not, Bool.not_true]
    rw [ModelCls.isExcluded, hspec]
    simp only [List.any_cons, List.any_eq_true, Bool.or_eq_false_iff]
    constructor
    · simp [idFieldSpec]
      intro heq
      exact absurd heq.symm hne
    · rw [List.any_eq_false]
      intro s hs
      simp [hrest s hs]

/-- Witness for claim C8 on the concrete Account document. -/
theorem C8_payload_excludes_id_witness :
    (∀ kv ∈ accountDoc.model_dump_json, kv.1 ≠ "id") ∧
    (∀ kv ∈ accountDoc.values, kv.1 ≠ "id" →
      kv ∈ accountDoc.model_dump_json) :=
  C8_payload_excludes_id accountDoc [⟨"holder", false⟩] rfl (by decide)

/-- Claim C9: get_document_id returns exactly the class name, a colon,
and the identifier; it is deterministic, and for a fixed class name it
is injective across identifiers. -/
theorem C9_get_document_id_shape (d1 d2 : Doc) :
    (∀ d : Doc, d.get_document_id = d.cls.clsName ++ ":" ++ d.id) ∧
    (d1 = d2 → d1.get_document_id = d2.get_document_id) ∧
    (d1.cls.clsName = d2.cls.clsName →
      d1.get_document_id = d2.get_document_id → d1.id = d2.id) := by
  refine ⟨fun _ => rfl, fun h => by rw [h], fun hcls heq => ?_⟩
  have h0 := congrArg String.data heq
  rw [Doc.get_document_id, Doc.get_document_id, hcls] at h0
  simp only [String.data_append, List.append_assoc,
    List.append_cancel_left_eq] at h0
  exact String.ext h0

/-- Witness for claim C9: two distinct documents of the Account class
with the same derived id have the same identifier. -/
theorem C9_get_document_id_shape_witness :
    Doc.id ⟨accountCls, [("id", "x"), ("holder", "A")]⟩ =
      Doc.id ⟨accountCls, [("id", "x"), ("note", "B")]⟩ :=
  (C9_get_document_id_shape ⟨accountCls, [("id", "x"), ("holder", "A")]⟩
    ⟨accountCls, [("id", "x"), ("note", "B")]⟩).2.2 rfl rfl

end PySpringRedis
